import Mathlib

/-!
Shallow embedding of `src/karakeep_sync.py` (OWUI-To-Karakeep).

Python strings are modelled as `String` or `List Char` (sequences of code
points), Python ints/floats as `Int`/`ℚ`, JSON values decoded by
`json.loads` as the inductive `PyVal`, and an uncaught Python exception as
`Except.error`.  Network calls are modelled by a script of `HttpResult`
values, one per request issued.
-/

namespace KarakeepSync

/-- Model of a Python value as produced by `json.loads` (plus `None`).
`vBool` is kept separate, but note that in Python `bool` is a subclass of
`int`, so `isinstance(True, (int, float))` holds; the formatter below
routes `vBool` through the numeric branch accordingly. -/
inductive PyVal where
  | vNone : PyVal
  | vBool : Bool → PyVal
  | vInt : Int → PyVal
  | vFloat : ℚ → PyVal
  | vStr : String → PyVal
  | vList : List PyVal → PyVal
  | vDict : List (String × PyVal) → PyVal

/-- Python `d.get(k, dflt)` on a dict modelled as a key-unique assoc list. -/
def py_dict_get (d : List (String × PyVal)) (k : String) (dflt : PyVal) : PyVal :=
  match d.find? (fun p => p.1 == k) with
  | some p => p.2
  | none => dflt

/-- Python truthiness (`if not x`): `None`, `False`, `0`, `0.0`, `""`, `[]`
and the empty dict are falsy. -/
def pyTruthy : PyVal → Bool
  | PyVal.vNone => false
  | PyVal.vBool b => b
  | PyVal.vInt n => n != 0
  | PyVal.vFloat q => q != 0
  | PyVal.vStr s => s != ""
  | PyVal.vList l => !l.isEmpty
  | PyVal.vDict d => !d.isEmpty

mutual

/-- Python `repr(v)` for JSON-shaped values (used for elements nested in a
list/dict).  String escaping inside `repr` is approximated by bare quotes;
no claim depends on the exact rendering of containers. -/
def pyRepr : PyVal → String
  | PyVal.vNone => "None"
  | PyVal.vBool true => "True"
  | PyVal.vBool false => "False"
  | PyVal.vInt n => toString n
  | PyVal.vFloat q => toString q
  | PyVal.vStr s => "\x27" ++ s ++ "\x27"
  | PyVal.vList l => "[" ++ pyReprList l ++ "]"
  | PyVal.vDict d => "\x7b" ++ pyReprDict d ++ "\x7d"

/-- Comma-separated `repr` of list elements. -/
def pyReprList : List PyVal → String
  | [] => ""
  | [v] => pyRepr v
  | v :: rest => pyRepr v ++ ", " ++ pyReprList rest

/-- Comma-separated `repr` of dict entries. -/
def pyReprDict : List (String × PyVal) → String
  | [] => ""
  | [(k, v)] => "\x27" ++ k ++ "\x27: " ++ pyRepr v
  | (k, v) :: rest => "\x27" ++ k ++ "\x27: " ++ pyRepr v ++ ", " ++ pyReprDict rest

end

/-- Python `str(v)`: identity on strings, `repr` otherwise. -/
def pyStr (v : PyVal) : String :=
  match v with
  | PyVal.vStr s => s
  | v => pyRepr v

/-- Python `str.capitalize()` (ASCII approximation): first character
upper-cased, the rest lower-cased. -/
def pyCapitalize (s : String) : String :=
  match s.toList with
  | [] => ""
  | c :: rest => String.mk (c.toUpper :: rest.map Char.toLower)

/-- Characters stripped by Python `str.strip()` (ASCII whitespace). -/
def py_space (c : Char) : Bool :=
  c = ' ' || c = '\t' || c = '\n' || c = '\r' || c = '\x0b' || c = '\x0c'

/-- Python `str.strip()`. -/
def pyStrip (s : String) : String :=
  String.mk (((s.toList.dropWhile py_space).reverse.dropWhile py_space).reverse)

/-! ## Title codec

`karakeep_sync.py` builds the destination title inside
`sync_or_update_chat_in_karakeep` (lines 360-391) from
`TITLE_ID_PREFIX = "[OW_ID:"`, `TITLE_ID_SUFFIX = "]"` and
`MAX_KARAKEEP_TITLE_LENGTH = 255`, and extracts the id back in
`get_karakeep_item_map_by_title` (lines 275-277, 319-322) with
`re.compile(" \[OW_ID:([a-zA-Z0-9\-]+)\]$")` applied via `.match`.
-/

/-- The literal `" [OW_ID:"` that opens the id tag (leading space included),
as in line 368: `id_tag_suffix = f" {TITLE_ID_PREFIX}{ow_chat_id}{TITLE_ID_SUFFIX}"`. -/
def ow_tag_open : List Char := (" [OW_ID:").toList

/-- The full id tag `" [OW_ID:" + ow_chat_id + "]"` (line 368). -/
def tag_of (ow : List Char) : List Char := ow_tag_open ++ ow ++ (']' :: [])

/-- Lines 371-388: the (possibly truncated) original-title part of the
combined title.  `available_title_length = MAX - len(id_tag_suffix)`; if the
tag alone exceeds the maximum the body is empty; otherwise the raw title is
kept, ellipsis-truncated (when at least 3 characters of budget remain) or
hard-truncated. -/
def truncated_title (original ow : List Char) (maxLen : Nat) : List Char :=
  if maxLen < (tag_of ow).length then []
  else if maxLen - (tag_of ow).length < original.length then
    if 3 ≤ maxLen - (tag_of ow).length then
      original.take (maxLen - (tag_of ow).length - 3) ++ ('.' :: '.' :: '.' :: [])
    else
      original.take (maxLen - (tag_of ow).length)
  else original

/-- Lines 372-377: the tag appended to the title; it is itself truncated to
`maxLen` in the degenerate case where it alone exceeds the maximum. -/
def tag_used (ow : List Char) (maxLen : Nat) : List Char :=
  if maxLen < (tag_of ow).length then (tag_of ow).take maxLen else tag_of ow

/-- Line 391: `combined_title = f"{truncated_title}{id_tag_suffix}"`.
This is the `encode(rawTitle, identifier, maxLength)` of the specification. -/
def combined_title (original ow : List Char) (maxLen : Nat) : List Char :=
  truncated_title original ow maxLen ++ tag_used ow maxLen

/-- Line 272 character class `[a-zA-Z0-9\-]`. -/
def id_char (c : Char) : Bool := c.isAlpha || c.isDigit || c = '-'

/-- Lines 275-277 and 319: `title_regex.match(title)` for the pattern
`" \[OW_ID:([a-zA-Z0-9\-]+)\]$"`, returning the captured group.
Python `re.match` anchors the pattern at the START of the string, and `$`
matches at the end of the string or just before one final newline.  The
greedy `+` over the class is exact here because neither `]` nor a newline is
in the class, so the residue after the longest run must be exactly the
closing bracket (with an optional final newline). -/
def decode (title : List Char) : Option (List Char) :=
  if ow_tag_open.isPrefixOf title then
    let rest := title.drop ow_tag_open.length
    let idPart := rest.takeWhile id_char
    let residue := rest.dropWhile id_char
    if idPart ≠ [] ∧ (residue = (']' :: []) ∨ residue = (']' :: '\n' :: [])) then
      some idPart
    else none
  else none

/-- Lines 360-362: `original_title = chat_row['title'] if chat_row['title']
else f"Untitled Chat {ow_chat_id}"` (falsy title means `None` or `""`). -/
def original_title (title : Option (List Char)) (ow : List Char) : List Char :=
  match title with
  | some t => if t ≠ [] then t else ("Untitled Chat ").toList ++ ow
  | none => ("Untitled Chat ").toList ++ ow

/-! ## Conversation formatter

`format_conversation` (lines 221-256).  `Except.error ()` models an uncaught
Python exception escaping the function. -/

/-- Line 241-244: seconds-vs-milliseconds heuristic.  A numeric timestamp
strictly greater than `3_000_000_000` (about year 2065 in seconds) is taken
to be milliseconds and divided by 1000; otherwise it is taken as seconds. -/
def ts_epoch_sec (v : ℚ) : ℚ := if 3000000000 < v then v / 1000 else v

/-- Zero-padded 2-digit rendering of a day/month/hour/minute/second field. -/
def pad2 (n : Int) : String :=
  if n < 10 then "0" ++ toString n else toString n

/-- Zero-padded 4-digit rendering of the year field. -/
def pad4 (n : Int) : String :=
  if n < 10 then "000" ++ toString n
  else if n < 100 then "00" ++ toString n
  else if n < 1000 then "0" ++ toString n
  else toString n

/-- Civil date from days since the Unix epoch (standard era-based
algorithm).  Callers guard the input range so that `z0 + 719468 ≥ 0` and
truncating division agrees with floor division. -/
def civil_from_days (z0 : Int) : Int × Int × Int :=
  let z := z0 + 719468
  let era := z / 146097
  let doe := z - era * 146097
  let yoe := (doe - doe / 1460 + doe / 36524 - doe / 146096) / 365
  let y := yoe + era * 400
  let doy := doe - (365 * yoe + yoe / 4 - yoe / 100)
  let mp := (5 * doy + 2) / 153
  let d := doy - (153 * mp + 2) / 5 + 1
  let m := mp + (if mp < 10 then 3 else -9)
  (if m ≤ 2 then y + 1 else y, m, d)

/-- Lines 246-247: `datetime.fromtimestamp(sec, timezone.utc).strftime(
'%Y-%m-%d %H:%M:%S %Z')`.  `none` models the exception raised for values
outside the representable `datetime` range (caught at line 248); fractional
seconds are floored since `%S` renders whole seconds. -/
def fmt_utc (sec : ℚ) : Option String :=
  let s := sec.floor
  if s < -62135596800 ∨ 253402300799 < s then none
  else
    let days := Int.fdiv s 86400
    let sod := s - days * 86400
    match civil_from_days days with
    | (y, mo, dy) =>
      some (pad4 y ++ "-" ++ pad2 mo ++ "-" ++ pad2 dy ++ " " ++
            pad2 (sod / 3600) ++ ":" ++ pad2 ((sod % 3600) / 60) ++ ":" ++
            pad2 (sod % 60) ++ " UTC")

/-- Lines 238-250: display string for a numeric timestamp `tsv` with
rational value `v`; falls back to `f"Epoch: {ts_epoch_val}"` when
`fromtimestamp`/`strftime` raises. -/
def ts_display (tsv : PyVal) (v : ℚ) : String :=
  match fmt_utc (ts_epoch_sec v) with
  | some s => s
  | none => "Epoch: " ++ pyStr tsv

/-- Lines 235-253: the timestamp string for one message.  `None` (missing
key) keeps the initial `"Timestamp N/A"`; `int`/`float` (and `bool`, an
`int` subclass) take the numeric path; any other type is rendered with
`str`. -/
def ts_str_of (ts : PyVal) : String :=
  match ts with
  | PyVal.vInt n => ts_display ts ((n : ℚ))
  | PyVal.vFloat q => ts_display ts q
  | PyVal.vBool b => ts_display ts (if b then 1 else 0)
  | PyVal.vNone => "Timestamp N/A"
  | t => pyStr t

/-- Lines 231-255: one loop iteration.  A non-dict message raises at
`msg.get` and a non-string role raises at `role.capitalize()`; all other
paths append `f"**{role.capitalize()}** ({ts_str}):\n{content}\n\n---\n\n"`. -/
def format_msg (msg : PyVal) : Except Unit String :=
  match msg with
  | PyVal.vDict d =>
    match py_dict_get d "role" (PyVal.vStr "Unknown") with
    | PyVal.vStr r =>
      Except.ok ("**" ++ pyCapitalize r ++ "** (" ++
        ts_str_of (py_dict_get d "timestamp" PyVal.vNone) ++ "):\n" ++
        pyStr (py_dict_get d "content" (PyVal.vStr "")) ++ "\n\n---\n\n")
    | _ => Except.error ()
  | _ => Except.error ()

/-- The message loop: concatenates entries in order, propagating the first
uncaught exception. -/
def format_msgs : List PyVal → Except Unit String
  | [] => Except.ok ""
  | m :: rest =>
    match format_msg m with
    | Except.error e => Except.error e
    | Except.ok entry =>
      match format_msgs rest with
      | Except.error e => Except.error e
      | Except.ok s => Except.ok (entry ++ s)

/-- Lines 221-256: `format_conversation`.  Non-list input returns `""`
(lines 227-229); otherwise the concatenated entries are `strip`ped. -/
def format_conversation (messages : PyVal) : Except Unit String :=
  match messages with
  | PyVal.vList msgs =>
    match format_msgs msgs with
    | Except.error e => Except.error e
    | Except.ok s => Except.ok (pyStrip s)
  | _ => Except.ok ""

/-- Whether a value is a Python list (`isinstance(messages, list)`). -/
def is_vlist : PyVal → Bool
  | PyVal.vList _ => true
  | _ => false

/-- The condition under which one loop iteration of `format_conversation`
does not raise: the message is a dict and its role (defaulted to
`"Unknown"`) is a string. -/
def format_msg_ok (m : PyVal) : Bool :=
  match m with
  | PyVal.vDict d =>
    match py_dict_get d "role" (PyVal.vStr "Unknown") with
    | PyVal.vStr _ => true
    | _ => false
  | _ => false

/-! ## Destination scan and upsert

Each HTTP request made by the script is modelled by one `HttpResult`:
`resp code body` is a completed response with the given status code and
JSON body (`none` when `.json()` would raise), `timeout` is
`requests.exceptions.Timeout`, and `connError` any other
`requests.exceptions.RequestException`.  `raise_for_status` raises exactly
when `400 ≤ code`. -/

inductive HttpResult where
  | resp : Nat → Option PyVal → HttpResult
  | timeout : HttpResult
  | connError : HttpResult

/-- Python dict assignment `item_map[k] = v` on an assoc-list model. -/
def dict_set (m : List (String × String)) (k v : String) : List (String × String) :=
  if m.any (fun p => p.1 == k) then
    m.map (fun p => if p.1 == k then (k, v) else p)
  else m ++ [(k, v)]

/-- Lines 308-322: processing of one bookmark object from a page: take its
`id` and `title` (non-string titles become `""`), skip items with a falsy
id, and record `item_map[group(1)] = str(id)` when the title regex
matches. -/
def process_item_fields (acc : List (String × String))
    (d : List (String × PyVal)) : List (String × String) :=
  let kid := py_dict_get d "id" PyVal.vNone
  let title :=
    match py_dict_get d "title" (PyVal.vStr "") with
    | PyVal.vStr s => s
    | _ => ""
  if pyTruthy kid then
    match decode title.toList with
    | some ow => dict_set acc (String.mk ow) (pyStr kid)
    | none => acc
  else acc

/-- The per-page item loop.  A non-dict element raises `AttributeError` at
`item.get`, which the enclosing generic handler (lines 347-349) turns into
an abort of the whole scan; the `Bool` result is `false` in that case, and
entries recorded before the bad element are kept. -/
def process_items : List PyVal → List (String × String) → List (String × String) × Bool
  | [], acc => (acc, true)
  | PyVal.vDict d :: rest, acc => process_items rest (process_item_fields acc d)
  | _ :: _, acc => (acc, false)

/-- Lines 282-352: the cursor-pagination loop of
`get_karakeep_item_map_by_title`, driven by the script of responses.
A `timeout` retries the same cursor (lines 334-337); any
`RequestException`, non-2xx status, JSON decode failure, non-dict body or
non-dict item ends the loop and the accumulated map is returned (lines
338-349); an empty or missing `bookmarks` list ends the loop (lines
299-305); a falsy `nextCursor` ends the loop after the page (lines
325-327). -/
def scan_go : List HttpResult → PyVal → List (String × String) → List (String × String)
  | [], _, acc => acc
  | HttpResult.timeout :: rest, cur, acc => scan_go rest cur acc
  | HttpResult.connError :: _, _, acc => acc
  | HttpResult.resp code body :: rest, _, acc =>
    if code < 400 then
      match body with
      | some (PyVal.vDict d) =>
        let items :=
          match py_dict_get d "bookmarks" (PyVal.vList []) with
          | PyVal.vList l => l
          | _ => []
        if items.isEmpty then acc
        else
          match process_items items acc with
          | (acc2, ok) =>
            if ok then
              let nc := py_dict_get d "nextCursor" PyVal.vNone
              if pyTruthy nc then scan_go rest nc acc2 else acc2
            else acc2
      | some _ => acc
      | none => acc
    else acc

/-- Lines 258-352: `get_karakeep_item_map_by_title`, starting from no
cursor and an empty map. -/
def get_karakeep_item_map_by_title (script : List HttpResult) : List (String × String) :=
  scan_go script PyVal.vNone []

/-- The three requests `sync_or_update_chat_in_karakeep` can issue, in
order: `PUT /bookmarks/{id}` (update), `POST /bookmarks` (create step 1),
`PUT /lists/{listId}/bookmarks/{bookmarkId}` (link step 2). -/
structure ApiScript where
  put_update : HttpResult
  post_create : HttpResult
  put_link : HttpResult

/-- Lines 445-446: success of the list-link call (step 2): a completed
response whose status passes `raise_for_status`. -/
def link_step_ok : HttpResult → Bool
  | HttpResult.resp c _ => decide (c < 400)
  | _ => false

/-- Lines 425-448: the two-step create path.  Step 1 must complete with an
ok status and a parseable dict body carrying a truthy `id` (lines 432-439),
then step 2 must succeed; every failure ends with `success = False` via the
handlers at lines 451-467. -/
def create_path (env : ApiScript) : Bool :=
  match env.post_create with
  | HttpResult.resp c body =>
    if c < 400 then
      match body with
      | some (PyVal.vDict d) =>
        if pyTruthy (py_dict_get d "id" PyVal.vNone) then link_step_ok env.put_link
        else false
      | _ => false
    else false
  | _ => false

/-- Lines 354-469: `sync_or_update_chat_in_karakeep`, reduced to its
success boolean as a function of the request outcomes.  With an existing
bookmark id, a PUT with status 404 falls through to the create path (lines
416-419); an ok PUT returns success; any other outcome is a failure. -/
def sync_or_update_chat_in_karakeep (existing : Option String) (env : ApiScript) : Bool :=
  match existing with
  | some _ =>
    match env.put_update with
    | HttpResult.resp 404 _ => create_path env
    | HttpResult.resp c _ => decide (c < 400)
    | _ => false
  | none => create_path env

/-! ## Main-loop watermark bookkeeping

Lines 507 and 549-598 of `main`: `current_run_max_timestamp_epoch` starts at
the loaded `last_sync_ts_epoch` and each processed chat row is reduced to
its `updated_at` epoch and the boolean result of its upsert. -/

/-- Lines 590-594: after one record, advance the in-memory maximum only when
the upsert succeeded and the record's `updated_at` strictly exceeds it. -/
def step_chat (cur : Int) (rec : Int × Bool) : Int :=
  if rec.2 = true ∧ cur < rec.1 then rec.1 else cur

/-- Lines 549-598: the processing loop over all fetched rows. -/
def process_chats (lastSync : Int) (rows : List (Int × Bool)) : Int :=
  rows.foldl step_chat lastSync

/-- Lines 607-614: the state file is written (with the new maximum) only
when the maximum strictly advanced past the loaded watermark; `none` means
the file is left untouched.  (The ISO conversion at lines 611-612 can itself
fail, in which case the file is also left untouched.) -/
def saved_state (lastSync : Int) (rows : List (Int × Bool)) : Option Int :=
  if lastSync < process_chats lastSync rows then some (process_chats lastSync rows) else none

/-- The watermark epoch persisted after the run: the written value if a
write happened, otherwise the previously persisted (= loaded) value. -/
def persisted_after (lastSync : Int) (rows : List (Int × Bool)) : Int :=
  (saved_state lastSync rows).getD lastSync

/-! ## Theorems -/

/-- The full id tag is the open marker, the id, and the closing bracket, so
its length is the id's length plus 9. -/
theorem tag_of_length (ow : List Char) : (tag_of ow).length = ow.length + 9 := by
  have h8 : ow_tag_open.length = 8 := rfl
  simp [tag_of, List.length_append, h8]
  omega

/-- The raw title picked at lines 360-362 is never empty: a truthy title is
a nonempty string, and the fallback starts with the literal
`"Untitled Chat "`. -/
theorem original_title_ne_nil (t : Option (List Char)) (ow : List Char) :
    original_title t ow ≠ [] := by
  have huc : (("Untitled Chat ").toList ++ ow) ≠ [] := by
    intro h
    rw [List.append_eq_nil] at h
    exact absurd h.1 (by decide)
  cases t with
  | none => exact huc
  | some l =>
    by_cases h : l = []
    · simp [original_title, h]
    · simp [original_title, h]

/-- Claim C3: for every raw title, identifier and maximum length the
combined title built at lines 366-391 (tag-truncation when the tag alone
exceeds the maximum, otherwise ellipsis- or hard-truncation of the raw
title, then the tag appended) has length at most the maximum. -/
theorem c3_length_bound (original ow : List Char) (maxLen : Nat) :
    (combined_title original ow maxLen).length ≤ maxLen := by
  unfold combined_title truncated_title tag_used
  by_cases h1 : maxLen < (tag_of ow).length
  · simp [h1, List.length_take]
  · by_cases h2 : maxLen - (tag_of ow).length < original.length
    · by_cases h3 : 3 ≤ maxLen - (tag_of ow).length
      · simp [h1, h2, h3, List.length_append, List.length_take]
        omega
      · simp [h1, h2, h3, List.length_append, List.length_take]
        omega
    · simp [h1, h2, List.length_append]
      omega

/-- Claim C1 (evaluation at the failing input): the title built for raw
title `"Foo"`, identifier `"abc"` and maximum length 255 is
`"Foo [OW_ID:abc]"`, yet the extraction of `get_karakeep_item_map_by_title`
yields no identifier from it, because `re.match` anchors the tag pattern at
the start of the title; only a title that is the bare tag decodes. -/
theorem c1_roundtrip_fails_on_nonempty_title :
    combined_title (("Foo").toList) (("abc").toList) 255 = (("Foo [OW_ID:abc]").toList) ∧
    decode ((("Foo [OW_ID:abc]").toList)) = none ∧
    decode (((" [OW_ID:abc]").toList)) = some (("abc").toList) :=
  ⟨rfl, rfl, rfl⟩

/-- Claim C2 (evaluation at the failing input): a bookmark whose title ends
with the tag, `"Bar [OW_ID:xyz]"`, is not recorded in the identifier map by
the page-processing loop of `get_karakeep_item_map_by_title`, while a
bookmark whose title is the bare tag `" [OW_ID:xyz]"` is recorded — the
extraction is start-anchored, not end-anchored. -/
theorem c2_end_tag_not_extracted :
    decode ((("Bar [OW_ID:xyz]").toList)) = none ∧
    process_items [PyVal.vDict [("id", PyVal.vStr "k1"), ("title", PyVal.vStr "Bar [OW_ID:xyz]")]] []
      = ([], true) ∧
    process_items [PyVal.vDict [("id", PyVal.vStr "k1"), ("title", PyVal.vStr " [OW_ID:xyz]")]] []
      = ([("xyz", "k1")], true) :=
  ⟨rfl, rfl, rfl⟩

set_option maxRecDepth 8192 in
/-- Claim C10, counterexample to the non-empty-body consequence: for a
246-character identifier the tag alone is exactly 255 characters, so with
the source's `MAX_KARAKEEP_TITLE_LENGTH = 255` the title body is empty and
the combined title is the bare tag. -/
theorem c10_counterexample :
    truncated_title (original_title none (List.replicate 246 'a')) (List.replicate 246 'a') 255
      = [] ∧
    combined_title (original_title none (List.replicate 246 'a')) (List.replicate 246 'a') 255
      = tag_of (List.replicate 246 'a') :=
  ⟨rfl, rfl⟩

/-- Claim C10 as amended: when the source title is missing or empty the raw
title is `"Untitled Chat "` followed by the identifier (lines 360-362), and
for every identifier of at most 245 characters (so that the 255-character
budget leaves room for at least one body character) the destination title
has a non-empty body before the identifier tag. -/
theorem c10_untitled_fallback :
    (∀ ow : List Char, original_title none ow = ("Untitled Chat ").toList ++ ow) ∧
    (∀ ow : List Char, original_title (some []) ow = ("Untitled Chat ").toList ++ ow) ∧
    (∀ (t : Option (List Char)) (ow : List Char), ow.length ≤ 245 →
      truncated_title (original_title t ow) ow 255 ≠ []) := by
  refine ⟨fun ow => rfl, fun ow => by simp [original_title], fun t ow h => ?_⟩
  have horig := original_title_ne_nil t ow
  have hlen : 0 < (original_title t ow).length := List.length_pos.mpr horig
  have htag : (tag_of ow).length = ow.length + 9 := tag_of_length ow
  unfold truncated_title
  rw [if_neg (by omega)]
  by_cases h2 : 255 - (tag_of ow).length < (original_title t ow).length
  · rw [if_pos h2]
    by_cases h3 : 3 ≤ 255 - (tag_of ow).length
    · rw [if_pos h3]
      simp
    · rw [if_neg h3]
      apply List.ne_nil_of_length_pos
      rw [List.length_take]
      omega
  · rw [if_neg h2]
    exact horig

/-- Witness for `c10_untitled_fallback` at the identifier `"abc"` and a
missing source title. -/
theorem c10_witness :
    truncated_title (original_title none (("abc").toList)) (("abc").toList) 255 ≠ [] :=
  c10_untitled_fallback.2.2 none (("abc").toList) (by decide)

/-- Claim C4: in the conversation formatter, a numeric timestamp strictly
greater than `3_000_000_000` (about year 2065 in seconds) is treated as
milliseconds and divided by 1000, and a value not exceeding that threshold
is treated as seconds; in particular `4_000_000_000` becomes `4_000_000`
seconds and `1_700_000_000` is kept as seconds. -/
theorem c4_timestamp_heuristic :
    (∀ v : ℚ, 3000000000 < v → ts_epoch_sec v = v / 1000) ∧
    (∀ v : ℚ, v ≤ 3000000000 → ts_epoch_sec v = v) ∧
    ts_epoch_sec 4000000000 = 4000000 ∧
    ts_epoch_sec 1700000000 = 1700000000 := by
  refine ⟨fun v h => if_pos h, fun v h => if_neg (not_lt.mpr h), ?_, ?_⟩
  · rw [ts_epoch_sec, if_pos (by norm_num)]
    norm_num
  · rw [ts_epoch_sec, if_neg (by norm_num)]

/-- Witness for `c4_timestamp_heuristic` at the value `4_000_000_000`. -/
theorem c4_witness :
    (3000000000 : ℚ) < 4000000000 ∧ ts_epoch_sec 4000000000 = 4000000000 / 1000 :=
  ⟨by norm_num, c4_timestamp_heuristic.1 4000000000 (by norm_num)⟩

/-- Claim C5 as stated is false: `format_conversation` can raise.  A list
whose element is the number `1` (a legitimate JSON `messages` entry) makes
`msg.get` raise `AttributeError`, modelled by `Except.error`. -/
theorem c5_counterexample :
    format_conversation (PyVal.vList [PyVal.vInt 1]) = Except.error () := rfl

/-- A message satisfying `format_msg_ok` formats without raising. -/
theorem format_msg_ok_sound (m : PyVal) (h : format_msg_ok m = true) :
    ∃ e, format_msg m = Except.ok e := by
  cases m with
  | vDict d =>
    cases hr : py_dict_get d "role" (PyVal.vStr "Unknown") with
    | vStr r =>
      exact ⟨"**" ++ pyCapitalize r ++ "** (" ++
        ts_str_of (py_dict_get d "timestamp" PyVal.vNone) ++ "):\n" ++
        pyStr (py_dict_get d "content" (PyVal.vStr "")) ++ "\n\n---\n\n",
        by simp [format_msg, hr]⟩
    | vNone => simp [format_msg_ok, hr] at h
    | vBool b => simp [format_msg_ok, hr] at h
    | vInt n => simp [format_msg_ok, hr] at h
    | vFloat q => simp [format_msg_ok, hr] at h
    | vList l => simp [format_msg_ok, hr] at h
    | vDict d2 => simp [format_msg_ok, hr] at h
  | vNone => simp [format_msg_ok] at h
  | vBool b => simp [format_msg_ok] at h
  | vInt n => simp [format_msg_ok] at h
  | vFloat q => simp [format_msg_ok] at h
  | vStr s => simp [format_msg_ok] at h
  | vList l => simp [format_msg_ok] at h

/-- A list of messages all satisfying `format_msg_ok` formats without
raising. -/
theorem format_msgs_ok_sound (msgs : List PyVal)
    (h : ∀ m ∈ msgs, format_msg_ok m = true) :
    ∃ s, format_msgs msgs = Except.ok s := by
  induction msgs with
  | nil => exact ⟨"", rfl⟩
  | cons m rest ih =>
    obtain ⟨e, he⟩ := format_msg_ok_sound m (h m (by simp))
    obtain ⟨s, hs⟩ := ih (fun x hx => h x (by simp [hx]))
    exact ⟨e ++ s, by simp [format_msgs, he, hs]⟩

/-- Claim C5 as amended: a non-list input yields the empty string; a list
input whose every element is a dict with a string (or absent) role is
formatted without raising; and a message with a missing timestamp gets the
literal `"Timestamp N/A"` placeholder while the rest of its entry is still
produced.  (As stated the claim fails: a list element that is not a dict,
or a non-string role, raises — see `c5_counterexample`.) -/
theorem c5_totality_and_degradation :
    (∀ v : PyVal, is_vlist v = false → format_conversation v = Except.ok "") ∧
    (∀ msgs : List PyVal, (∀ m ∈ msgs, format_msg_ok m = true) →
      ∃ s, format_conversation (PyVal.vList msgs) = Except.ok s) ∧
    (∀ (d : List (String × PyVal)) (r : String),
      py_dict_get d "role" (PyVal.vStr "Unknown") = PyVal.vStr r →
      py_dict_get d "timestamp" PyVal.vNone = PyVal.vNone →
      format_msg (PyVal.vDict d) =
        Except.ok ("**" ++ pyCapitalize r ++ "** (" ++ "Timestamp N/A" ++ "):\n" ++
          pyStr (py_dict_get d "content" (PyVal.vStr "")) ++ "\n\n---\n\n")) := by
  refine ⟨fun v h => ?_, fun msgs h => ?_, fun d r hr ht => ?_⟩
  · cases v <;> simp_all [is_vlist, format_conversation]
  · obtain ⟨s, hs⟩ := format_msgs_ok_sound msgs h
    exact ⟨pyStrip s, by simp [format_conversation, hs]⟩
  · simp [format_msg, hr, ht, ts_str_of]

/-- Witness for `c5_totality_and_degradation`: a non-list input and a
single-message dict with no timestamp, both at concrete values. -/
theorem c5_witness :
    format_conversation (PyVal.vStr "x") = Except.ok "" ∧
    format_msg (PyVal.vDict [("role", PyVal.vStr "user")]) =
      Except.ok ("**" ++ pyCapitalize "user" ++ "** (" ++ "Timestamp N/A" ++ "):\n" ++
        pyStr (py_dict_get [("role", PyVal.vStr "user")] "content" (PyVal.vStr "")) ++
        "\n\n---\n\n") :=
  ⟨c5_totality_and_degradation.1 (PyVal.vStr "x") rfl,
   c5_totality_and_degradation.2.2 [("role", PyVal.vStr "user")] "user" rfl rfl⟩

/-- One processing step never decreases the running maximum. -/
theorem step_chat_le (cur : Int) (r : Int × Bool) : cur ≤ step_chat cur r := by
  unfold step_chat
  split
  · omega
  · exact le_refl cur

/-- The running maximum over all rows never drops below its start value. -/
theorem process_chats_le (lastSync : Int) (rows : List (Int × Bool)) :
    lastSync ≤ process_chats lastSync rows := by
  induction rows generalizing lastSync with
  | nil => exact le_refl lastSync
  | cons r rest ih =>
    have h1 : lastSync ≤ step_chat lastSync r := step_chat_le lastSync r
    have h2 : step_chat lastSync r ≤ process_chats (step_chat lastSync r) rest :=
      ih (step_chat lastSync r)
    exact le_trans h1 h2

/-- Claim C6: the watermark epoch persisted after a run is never below the
one loaded at its start, and the state file is written only when the
in-memory maximum strictly exceeded the loaded value (lines 507, 590-594
and 607-614). -/
theorem c6_watermark_monotone :
    ∀ (lastSync : Int) (rows : List (Int × Bool)),
      lastSync ≤ persisted_after lastSync rows ∧
      (process_chats lastSync rows ≤ lastSync → saved_state lastSync rows = none) := by
  intro lastSync rows
  have hle := process_chats_le lastSync rows
  constructor
  · unfold persisted_after saved_state
    split
    · simpa using le_of_lt (by assumption)
    · simp
  · intro h
    unfold saved_state
    rw [if_neg (by omega)]

/-- Witness for `c6_watermark_monotone`: a run whose only record has an
older update time than the loaded watermark leaves the state untouched. -/
theorem c6_witness :
    (5 : Int) ≤ persisted_after 5 [(3, true)] ∧ saved_state 5 [(3, true)] = none :=
  ⟨(c6_watermark_monotone 5 [(3, true)]).1,
   (c6_watermark_monotone 5 [(3, true)]).2 (by decide)⟩

/-- Claim C7: per-record processing (lines 549-598): the in-memory maximum
is advanced to a record's update time exactly when its upsert succeeded and
the update time strictly exceeds the current maximum; a failed record
leaves the maximum unchanged and processing continues with the remaining
records. -/
theorem c7_per_record_processing :
    (∀ cur ts : Int, cur < ts → step_chat cur (ts, true) = ts) ∧
    (∀ cur ts : Int, ts ≤ cur → step_chat cur (ts, true) = cur) ∧
    (∀ cur ts : Int, step_chat cur (ts, false) = cur) ∧
    (∀ (lastSync ts : Int) (rest : List (Int × Bool)),
      process_chats lastSync ((ts, false) :: rest) = process_chats lastSync rest) := by
  refine ⟨fun cur ts h => ?_, fun cur ts h => ?_, fun cur ts => ?_, fun lastSync ts rest => ?_⟩
  · simp [step_chat, h]
  · simp [step_chat]
    omega
  · simp [step_chat]
  · show List.foldl step_chat (step_chat lastSync (ts, false)) rest = _
    simp [step_chat, process_chats]

/-- Witness for `c7_per_record_processing` at concrete records. -/
theorem c7_witness :
    step_chat 0 (5, true) = 5 ∧ step_chat 9 (5, true) = 9 ∧ step_chat 4 (5, false) = 4 :=
  ⟨c7_per_record_processing.1 0 5 (by decide),
   c7_per_record_processing.2.1 9 5 (by decide),
   c7_per_record_processing.2.2.1 4 5⟩

/-- Claim C8: in the two-step create path, when step 1 (`POST /bookmarks`)
completes with an ok status and a body carrying a truthy id but step 2 (the
list-link `PUT`) fails, the upsert returns failure, and consequently the
in-memory maximum is not advanced for that record. -/
theorem c8_partial_create_failure :
    ∀ (env : ApiScript) (c : Nat) (d : List (String × PyVal)) (cur ts : Int),
      env.post_create = HttpResult.resp c (some (PyVal.vDict d)) →
      c < 400 →
      pyTruthy (py_dict_get d "id" PyVal.vNone) = true →
      link_step_ok env.put_link = false →
      sync_or_update_chat_in_karakeep none env = false ∧
      step_chat cur (ts, sync_or_update_chat_in_karakeep none env) = cur := by
  intro env c d cur ts h1 h2 h3 h4
  have hs : sync_or_update_chat_in_karakeep none env = false := by
    simp [sync_or_update_chat_in_karakeep, create_path, h1, h2, h3, h4]
  exact ⟨hs, by simp [step_chat, hs]⟩

/-- Witness for `c8_partial_create_failure`: create returns 200 with id
`"b1"`, the link call returns 500. -/
theorem c8_witness :
    sync_or_update_chat_in_karakeep none
      ⟨HttpResult.timeout, HttpResult.resp 200 (some (PyVal.vDict [("id", PyVal.vStr "b1")])),
       HttpResult.resp 500 none⟩ = false ∧
    step_chat 7 (9, sync_or_update_chat_in_karakeep none
      ⟨HttpResult.timeout, HttpResult.resp 200 (some (PyVal.vDict [("id", PyVal.vStr "b1")])),
       HttpResult.resp 500 none⟩) = 7 :=
  c8_partial_create_failure
    ⟨HttpResult.timeout, HttpResult.resp 200 (some (PyVal.vDict [("id", PyVal.vStr "b1")])),
     HttpResult.resp 500 none⟩ 200 [("id", PyVal.vStr "b1")] 7 9 rfl (by decide) rfl rfl

/-- Claim C9: during the paginated scan, a timeout (any number of
consecutive timeouts) retries the same cursor; a transport error, an HTTP
error status, or a JSON-decode failure ends the loop with the map
accumulated so far; the scan itself is a total function, never propagating
an exception to the caller. -/
theorem c9_scan_error_behaviour :
    (∀ (n : Nat) (rest : List HttpResult) (cur : PyVal) (acc : List (String × String)),
      scan_go (List.replicate n HttpResult.timeout ++ rest) cur acc = scan_go rest cur acc) ∧
    (∀ (rest : List HttpResult) (cur : PyVal) (acc : List (String × String)),
      scan_go (HttpResult.connError :: rest) cur acc = acc) ∧
    (∀ (rest : List HttpResult) (cur : PyVal) (acc : List (String × String))
        (code : Nat) (body : Option PyVal), 400 ≤ code →
      scan_go (HttpResult.resp code body :: rest) cur acc = acc) ∧
    (∀ (rest : List HttpResult) (cur : PyVal) (acc : List (String × String))
        (code : Nat), code < 400 →
      scan_go (HttpResult.resp code none :: rest) cur acc = acc) ∧
    (∀ rest : List HttpResult, get_karakeep_item_map_by_title (HttpResult.connError :: rest) = []) := by
  refine ⟨?_, fun rest cur acc => rfl, fun rest cur acc code body h => ?_,
    fun rest cur acc code h => ?_, fun rest => rfl⟩
  · intro n
    induction n with
    | zero => intro rest cur acc; rfl
    | succ k ih =>
      intro rest cur acc
      rw [List.replicate_succ, List.cons_append]
      show scan_go (List.replicate k HttpResult.timeout ++ rest) cur acc = _
      exact ih rest cur acc
  · show (if code < 400 then _ else acc) = acc
    rw [if_neg (by omega)]
  · show (if code < 400 then _ else acc) = acc
    rw [if_pos h]

/-- Witness for `c9_scan_error_behaviour`: an HTTP 500 response ends the
scan with the empty map; a 200 response with an unparseable body does the
same. -/
theorem c9_witness :
    scan_go [HttpResult.resp 500 none] PyVal.vNone [] = [] ∧
    scan_go [HttpResult.resp 200 none] PyVal.vNone [] = [] :=
  ⟨c9_scan_error_behaviour.2.2.1 [] PyVal.vNone [] 500 none (by decide),
   c9_scan_error_behaviour.2.2.2.1 [] PyVal.vNone [] 200 (by decide)⟩

end KarakeepSync
